import Mathlib

/-!
Verification of the Data Steward MCP server (`src/server.ts`).

The file shallowly embeds the session/transport lifecycle manager of
`MCPServer`: the GET/POST dispatchers, the session-id → transport registry,
the call-tool handler with its DDL tool executor, the periodic catalog
refresh broadcast, and the notification streaming engine.  External
collaborators (the SDK transport, the postgres client, `JSON.stringify`,
`process.env`, `randomUUID`) are modelled as explicit parameters: each
handler receives the outcomes of the external calls it performs, so the
embedded functions are pure and executable.
-/

/-! ## JavaScript value helpers

The source tests strings and numbers for JS truthiness (`!x`): an absent
value, the empty string and the number 0 are falsy.  Optional values model
`undefined`. -/

def truthyStr : Option String → Bool
  | none => false
  | some s => s ≠ ""

def truthyInt : Option Int → Bool
  | none => false
  | some i => i ≠ 0

def jsOrStr (a b : Option String) : Option String :=
  if truthyStr a then a else b

def jsOrInt (a b : Option Int) : Option Int :=
  if truthyInt a then a else b

/-- JS `String.prototype.toLowerCase()` on the ASCII strings the server
compares, as a structural map over the characters. -/
def jsToLowerCase (s : String) : String :=
  ⟨s.data.map Char.toLower⟩

/-! ## Message envelope model -/

/-- A JSON-RPC error envelope as built by `createErrorResponse`:
`jsonrpc: "2.0"`, an `error` object with `code` and `message`, and a
freshly generated UUID as `id`. -/
structure JSONRPCErrorEnvelope where
  jsonrpc : String
  code : Int
  message : String
  id : String
deriving Repr, DecidableEq

/-- `createErrorResponse(message)` from the source; the `id` field is
`randomUUID()`, supplied here as the explicit argument `idv`. -/
def createErrorResponse (idv : String) (message : String) : JSONRPCErrorEnvelope :=
  { jsonrpc := "2.0", code := -32000, message := message, id := idv }

/-- One item of a tool result's `content` array; the source only ever
produces `type: "text"` items. -/
structure ContentItem where
  type : String
  text : String
deriving Repr, DecidableEq

/-- The result envelope returned by a tool handler. -/
structure ToolResult where
  content : List ContentItem
deriving Repr, DecidableEq

/-! ## Session registry

`MCPServer.transports` is a plain JS object mapping session ids to
transports.  Transports are identified by a `Nat` token.  The map is an
association list with unique keys; JS property assignment
`transports[sid] = t` overwrites any previous binding of `sid`. -/

abbrev Registry := List (String × Nat)

def lookupTransport (st : Registry) (sid : String) : Option Nat :=
  match st.find? (fun p => p.1 = sid) with
  | some p => some p.2
  | none => none

/-- `this.transports[sessionId] = transport`: JS object assignment, which
replaces any existing binding for the key. -/
def insertTransport (st : Registry) (sid : String) (t : Nat) : Registry :=
  (sid, t) :: st.filter (fun p => p.1 ≠ sid)

/-! ## Request bodies and `isInitializeRequest` -/

/-- A POST body: a single JSON-RPC object or an array of objects.  Each
object is abstracted to whether `InitializeRequestSchema.safeParse`
succeeds on it. -/
inductive JsonBody where
  | single (isInit : Bool)
  | array (elems : List Bool)
deriving Repr, DecidableEq

/-- `isInitializeRequest(body)` from the source: on an array,
`body.some(isInitial)`; otherwise `isInitial(body)`. -/
def isInitializeRequest : JsonBody → Bool
  | .single b => b
  | .array es => es.any id

/-! ## HTTP responses -/

/-- What a dispatcher writes back: either the response was delegated to
`transport.handleRequest`, or the dispatcher itself wrote a JSON error
with an HTTP status. -/
inductive HttpResp where
  | delegated
  | json (status : Nat) (env : JSONRPCErrorEnvelope)
deriving Repr, DecidableEq

/-! ## GET dispatcher (`handleGetRequest`)

The GET handler has no try/catch: a rejection from
`transport.handleRequest` propagates to the caller, modelled by the
`Except` result.  `forwardOutcome` is the outcome of that external call.
`streamMessages` is started afterwards and is modelled separately. -/

def handleGetRequest (st : Registry) (sessionId : Option String)
    (forwardOutcome : Except String Unit) (errId : String) :
    Except String HttpResp :=
  if ¬ truthyStr sessionId ∨ (lookupTransport st (sessionId.getD "")).isNone then
    .ok (.json 400 (createErrorResponse errId "Bad Request: invalid session ID or method."))
  else
    match forwardOutcome with
    | .error e => .error e
    | .ok _ => .ok .delegated

/-! ## POST dispatcher (`handlePostRequest`) -/

/-- Outcomes of the external calls `handlePostRequest` performs, in source
order: forwarding to an existing transport, `server.connect` on a new
transport, the initialize `handleRequest` on it, the session id the SDK
assigned to the new transport (`transport.sessionId`), the identity of the
new transport object, and the UUID used for an error envelope id. -/
structure PostEffects where
  forwardOutcome : Except String Unit
  connectOutcome : Except String Unit
  initOutcome : Except String Unit
  genSessionId : Option String
  newTransport : Nat
  errId : String

/-- The body of `handlePostRequest`'s try block.  A thrown exception from
any awaited call surfaces as `.error`. -/
def handlePostRequestTry (st : Registry) (sessionId : Option String)
    (body : JsonBody) (fx : PostEffects) :
    Except String (HttpResp × Registry) :=
  if truthyStr sessionId ∧ (lookupTransport st (sessionId.getD "")).isSome then
    match fx.forwardOutcome with
    | .error e => .error e
    | .ok _ => .ok (.delegated, st)
  else if ¬ truthyStr sessionId ∧ isInitializeRequest body then
    match fx.connectOutcome with
    | .error e => .error e
    | .ok _ =>
      match fx.initOutcome with
      | .error e => .error e
      | .ok _ =>
        match fx.genSessionId with
        | some sid => .ok (.delegated, insertTransport st sid fx.newTransport)
        | none => .ok (.delegated, st)
  else
    .ok (.json 400 (createErrorResponse fx.errId "Bad Request: invalid session ID or method."), st)

/-- `handlePostRequest`: the try block with its catch, which logs and
answers 500 with the generic internal-error envelope, leaving the registry
unchanged. -/
def handlePostRequest (st : Registry) (sessionId : Option String)
    (body : JsonBody) (fx : PostEffects) : HttpResp × Registry :=
  match handlePostRequestTry st sessionId body fx with
  | .ok r => r
  | .error _ => (.json 500 (createErrorResponse fx.errId "Internal server error."), st)

/-! ## DDL tool executor (`handleGetDDLTool`) -/

/-- The `connection_info` argument object; every field may be absent. -/
structure ConnectionInfoArgs where
  host : Option String
  port : Option Int
  user : Option String
  password : Option String
  database : Option String
deriving Repr, DecidableEq

/-- The arguments object of a `get_database_table_ddl` call. -/
structure DDLArgs where
  database_type : Option String
  connection_info : Option ConnectionInfoArgs
  table_name : Option String
deriving Repr, DecidableEq

/-- One row of the `information_schema.columns` query result. -/
structure DDLRow where
  column_name : String
  data_type : String
  character_maximum_length : Option Int
deriving Repr, DecidableEq

/-- The `process.env` Postgres fallback credentials; `PGPORT` is the
result of `Number(process.env.PGPORT)`, with `none` standing for an unset
variable or a non-numeric one (NaN), both falsy. -/
structure Env where
  PGHOST : Option String
  PGPORT : Option Int
  PGUSER : Option String
  PGPASSWORD : Option String
  PGDATABASE : Option String
deriving Repr, DecidableEq

/-- External collaborators of the tool executor: the environment, the
postgres connect/query/end block (given the resolved connection info and
the table name, it yields rows or a thrown message), and
`JSON.stringify(rows, null, 2)`. -/
structure ToolEffects where
  env : Env
  query : ConnectionInfoArgs → String → Except String (List DDLRow)
  stringify : List DDLRow → String

/-- The `conn` record: each `connection_info` field with `process.env`
fallback via JS `||`. -/
def resolveConn (env : Env) (ci : ConnectionInfoArgs) : ConnectionInfoArgs :=
  { host := jsOrStr ci.host env.PGHOST
    port := jsOrInt ci.port env.PGPORT
    user := jsOrStr ci.user env.PGUSER
    password := jsOrStr ci.password env.PGPASSWORD
    database := jsOrStr ci.database env.PGDATABASE }

/-- `!conn.host || !conn.port || !conn.user || !conn.password || !conn.database`. -/
def connIncomplete (c : ConnectionInfoArgs) : Bool :=
  ¬ truthyStr c.host ∨ ¬ truthyInt c.port ∨ ¬ truthyStr c.user ∨
    ¬ truthyStr c.password ∨ ¬ truthyStr c.database

/-- The generated data dictionary text: header line, then one line per
row, with the character maximum length appended in parentheses when
truthy; `"No columns found."` when the row set is empty. -/
def dataDictionary (table_name : String) (rows : List DDLRow) : String :=
  let header := "Table \"" ++ table_name ++ "\" columns:\n"
  if rows = [] then
    header ++ "No columns found."
  else
    header ++ rows.foldl (fun acc row =>
      acc ++ "- " ++ row.column_name ++ ": " ++ row.data_type ++
        (if truthyInt row.character_maximum_length then
          "(" ++ toString (row.character_maximum_length.getD 0) ++ ")"
        else "") ++ "\n") ""

def missingParamsResult : ToolResult :=
  { content := [{ type := "text",
                  text := "Missing required parameters: database_type, connection_info, or table_name." }] }

def unsupportedDbResult (database_type : String) : ToolResult :=
  { content := [{ type := "text",
                  text := "Unsupported database type: " ++ database_type ++ ". Only PostgreSQL is supported." }] }

def incompleteConnResult : ToolResult :=
  { content := [{ type := "text",
                  text := "Database connection info is incomplete. Please provide all required fields or set them in .env." }] }

def ddlFailureResult (ddlError : String) : ToolResult :=
  { content := [{ type := "text", text := "Failed to retrieve DDL: " ++ ddlError }] }

/-- `handleGetDDLTool(args)`: validates the arguments, the database type
and the resolved connection, runs the catalog query through the external
client, and renders either the failure text or the DDL rows with the
generated data dictionary.  Every path returns a result; nothing throws. -/
def handleGetDDLTool (fx : ToolEffects) (args : DDLArgs) : ToolResult :=
  if ¬ truthyStr args.database_type ∨ args.connection_info.isNone ∨
      ¬ truthyStr args.table_name then
    missingParamsResult
  else
    let database_type := args.database_type.getD ""
    let connection_info := args.connection_info.getD ⟨none, none, none, none, none⟩
    let table_name := args.table_name.getD ""
    if jsToLowerCase database_type ≠ "postgresql" ∧ jsToLowerCase database_type ≠ "postgres" then
      unsupportedDbResult database_type
    else
      let conn := resolveConn fx.env connection_info
      if connIncomplete conn then
        incompleteConnResult
      else
        match fx.query conn table_name with
        | .error ddlError => ddlFailureResult ddlError
        | .ok ddlRows =>
          { content := [
              { type := "text", text := "DDL (columns):\n" ++ fx.stringify ddlRows },
              { type := "text", text := "Data Dictionary:\n" ++ dataDictionary table_name ddlRows }] }

/-! ## Call-tool request handler -/

def getDDLToolName : String := "get_database_table_ddl"

/-- The `CallToolRequestSchema` handler: throws on a falsy `arguments` or
tool name, dispatches the DDL tool, and throws `"Tool not found"` on any
other tool name.  A `.error` is a thrown exception, which the SDK layer
turns into a JSON-RPC error response, not a tool result. -/
def callToolHandler (fx : ToolEffects) (toolName : String)
    (args : Option DDLArgs) : Except String ToolResult :=
  if args.isNone then .error "arguments undefined"
  else if toolName = "" then .error "tool name undefined"
  else if toolName = getDDLToolName then
    .ok (handleGetDDLTool fx (args.getD ⟨none, none, none⟩))
  else .error "Tool not found"

/-! ## Tool catalog and periodic refresh (`setupTools`) -/

/-- A JSON-schema-like structure, enough for the catalog literal. -/
inductive JSchema where
  | str (description : Option String)
  | num
  | obj (properties : List (String × JSchema)) (required : List String)
deriving Repr

structure ToolDescriptor where
  name : String
  description : String
  inputSchema : JSchema
deriving Repr

/-- The `getDDLTool` descriptor built by `setToolSchema`. -/
def getDDLTool : ToolDescriptor :=
  { name := getDDLToolName
    description := "Retrieves the DDL for a specified table and generates a human-readable data dictionary using AI reasoning."
    inputSchema := .obj [
      ("database_type", .str (some "Type of database (e.g., PostgreSQL)")),
      ("connection_info", .obj [
          ("host", .str none), ("port", .num), ("user", .str none),
          ("password", .str none), ("database", .str none)]
        ["host", "port", "user", "password", "database"]),
      ("table_name", .str (some "Name of the table"))]
      ["database_type", "connection_info", "table_name"] }

/-- The `ListToolsRequestSchema` handler answer: `{ tools: [getDDLTool] }`. -/
def listToolsResult : List ToolDescriptor := [getDDLTool]

def toolListChangedMethod : String := "notifications/tools/list_changed"

/-- One tick of the 5-second catalog interval: re-register the list-tools
handler (the rebuilt catalog) and send one tool-list-changed notification
to every transport in the registry.  The sends are fire-and-forget
(`sendNotification` is not awaited), so every transport is attempted
regardless of the outcome `sendOk` of any other send; the tick returns
the rebuilt catalog and the per-transport attempts with their outcomes. -/
def refreshTick (st : Registry) (sendOk : Nat → Bool) :
    List ToolDescriptor × List (Nat × String × Bool) :=
  (listToolsResult, st.map (fun p => (p.2, toolListChangedMethod, sendOk p.2)))

/-! ## Notification streaming engine (`streamMessages`) -/

/-- A `notifications/message` logging notification. -/
structure LoggingNotification where
  method : String
  level : String
  data : String
deriving Repr, DecidableEq

def establishedMsg : LoggingNotification :=
  { method := "notifications/message", level := "info", data := "SSE Connection established" }

def infoMsg (count : Nat) (timestamp : String) : LoggingNotification :=
  { method := "notifications/message", level := "info",
    data := "Message " ++ toString count ++ " at " ++ timestamp }

def completeMsg : LoggingNotification :=
  { method := "notifications/message", level := "info", data := "Streaming complete!" }

/-- State of one stream instance: the `messageCount` counter and whether
the interval is still scheduled. -/
structure StreamState where
  messageCount : Nat
  active : Bool
deriving Repr, DecidableEq

/-- Stream start: send the connection-established notification and
schedule the interval with `messageCount = 0`. -/
def streamInit : StreamState × List LoggingNotification :=
  ({ messageCount := 0, active := true }, [establishedMsg])

/-- One interval tick: if the interval was cleared nothing fires;
otherwise increment the counter, send the periodic message with the
clock's timestamp, and on the second message clear the interval and send
the completion message. -/
def streamStep (clock : Nat → String) (s : StreamState) :
    StreamState × List LoggingNotification :=
  if ¬ s.active then (s, [])
  else
    let c := s.messageCount + 1
    if c = 2 then
      ({ messageCount := c, active := false }, [infoMsg c (clock c), completeMsg])
    else
      ({ messageCount := c, active := true }, [infoMsg c (clock c)])

def streamTicks (clock : Nat → String) : Nat → StreamState × List LoggingNotification
  | 0 => streamInit
  | n + 1 =>
    let (s, ms) := streamTicks clock n
    let (s2, ms2) := streamStep clock s
    (s2, ms ++ ms2)

/-- The full trace of notifications sent on a stream instance after `n`
interval ticks. -/
def streamRun (clock : Nat → String) (n : Nat) : List LoggingNotification :=
  (streamTicks clock n).2

/-! ## Concrete fixtures used by witnesses and counterexamples -/

def emptyConnArgs : ConnectionInfoArgs := ⟨none, none, none, none, none⟩

def emptyEnv : Env := ⟨none, none, none, none, none⟩

/-- A concrete executor environment: no env credentials, a database that
refuses connections, and a trivial stringifier. -/
def testToolEffects : ToolEffects :=
  { env := emptyEnv
    query := fun _ _ => .error "connection refused"
    stringify := fun _ => "[]" }

/-- Concrete external outcomes for a POST in which every external call
succeeds and the SDK assigns session id `"s1"` to transport `7`. -/
def okPostEffects : PostEffects :=
  { forwardOutcome := .ok ()
    connectOutcome := .ok ()
    initOutcome := .ok ()
    genSessionId := some "s1"
    newTransport := 7
    errId := "e1" }

/-! ## Registry lemmas -/

theorem lookupTransport_insert (st : Registry) (sid : String) (t : Nat) :
    lookupTransport (insertTransport st sid t) sid = some t := by
  rw [insertTransport, lookupTransport]
  rw [List.find?_cons_of_pos]
  simp

/-! ## Stream engine lemmas -/

theorem streamStep_inactive (clock : Nat → String) (s : StreamState)
    (h : s.active = false) : streamStep clock s = (s, []) := by
  simp [streamStep, h]

theorem streamTicks_two (clock : Nat → String) :
    streamTicks clock 2 =
      ({ messageCount := 2, active := false },
       [establishedMsg, infoMsg 1 (clock 1), infoMsg 2 (clock 2), completeMsg]) := by
  simp [streamTicks, streamInit, streamStep]

theorem streamTicks_stable (clock : Nat → String) (m : Nat) :
    streamTicks clock (2 + m) = streamTicks clock 2 := by
  induction m with
  | zero => rfl
  | succ k ih =>
    show streamTicks clock (2 + k + 1) = streamTicks clock 2
    rw [streamTicks, ih, streamTicks_two]
    simp [streamStep_inactive]

/-- C3: a run of the streaming engine with at least the two scheduled
interval ticks sends exactly the connection-established message, the two
periodic info messages with counters 1 and 2, and the completion message;
further ticks add nothing, so no stream message follows the completion
message. -/
theorem stream_run_trace (clock : Nat → String) (n : Nat) (h : 2 ≤ n) :
    streamRun clock n =
      [establishedMsg, infoMsg 1 (clock 1), infoMsg 2 (clock 2), completeMsg] := by
  obtain ⟨m, rfl⟩ := Nat.exists_eq_add_of_le h
  rw [streamRun, streamTicks_stable, streamTicks_two]

theorem stream_run_trace_witness :
    streamRun (fun _ => "2025-01-01T00:00:00.000Z") 5 =
      [establishedMsg, infoMsg 1 "2025-01-01T00:00:00.000Z",
       infoMsg 2 "2025-01-01T00:00:00.000Z", completeMsg] :=
  stream_run_trace (fun _ => "2025-01-01T00:00:00.000Z") 5 (by decide)

/-! ## C1: unknown tool name -/

/-- C1 counterexample: calling the present but unregistered tool name
`"web_search"` makes the call-tool handler throw `"Tool not found"`; the
handler does not return a successful result envelope, contradicting the
claim that an unknown tool name yields a Result stating the tool was not
found. -/
theorem unknown_tool_counterexample :
    (callToolHandler testToolEffects "web_search" (some ⟨none, none, none⟩)).isOk = false ∧
    callToolHandler testToolEffects "web_search" (some ⟨none, none, none⟩) =
      .error "Tool not found" := by
  constructor <;> rfl

/-- C1 (amended): for every call-tool request whose tool name is present
(non-empty) but is not the registered DDL tool, the handler throws
`"Tool not found"` — the SDK layer surfaces that thrown error as an error
response, not as a successful Result envelope. -/
theorem unknown_tool_throws (fx : ToolEffects) (toolName : String) (args : DDLArgs)
    (h1 : toolName ≠ "") (h2 : toolName ≠ getDDLToolName) :
    callToolHandler fx toolName (some args) = .error "Tool not found" := by
  simp [callToolHandler, h1, h2]

theorem unknown_tool_throws_witness :
    callToolHandler testToolEffects "sql_query" (some ⟨none, none, none⟩) =
      .error "Tool not found" :=
  unknown_tool_throws testToolEffects "sql_query" ⟨none, none, none⟩
    (by decide) (by decide)

/-! ## C8: registering under an existing session id -/

/-- C8 counterexample: with transport `1` registered under session id
`"abc"`, registering transport `2` under the same id is not rejected —
the assignment replaces the binding, and lookup then yields the new
transport instead of the original one. -/
theorem register_existing_id_counterexample :
    lookupTransport (insertTransport [("abc", 1)] "abc" 2) "abc" = some 2 ∧
    lookupTransport (insertTransport [("abc", 1)] "abc" 2) "abc" ≠ some 1 := by
  constructor <;> decide

/-- C8 (amended): the registry is a map with unique keys, so it holds at
most one transport per session id, and registration keeps that invariant;
but registering under an already-present id replaces the existing channel
rather than rejecting the registration. -/
theorem registry_insert_replaces (st : Registry) (sid : String) (t : Nat)
    (hnodup : (st.map Prod.fst).Nodup) :
    ((insertTransport st sid t).map Prod.fst).Nodup ∧
    lookupTransport (insertTransport st sid t) sid = some t := by
  constructor
  · rw [insertTransport]
    simp only [List.map_cons, List.nodup_cons]
    constructor
    · intro hmem
      obtain ⟨p, hp, hfst⟩ := List.mem_map.mp hmem
      have := (List.mem_filter.mp hp).2
      simp [hfst] at this
    · exact hnodup.sublist ((List.filter_sublist st).map Prod.fst)
  · exact lookupTransport_insert st sid t

theorem registry_insert_replaces_witness :
    (((insertTransport [("abc", 1)] "abc" 2).map Prod.fst).Nodup ∧
      lookupTransport (insertTransport [("abc", 1)] "abc" 2) "abc" = some 2) :=
  registry_insert_replaces [("abc", 1)] "abc" 2 (by decide)

/-! ## C2: exception handling in the two entry points -/

/-- Concrete external outcomes in which `server.connect` on the newly
created transport throws, so the Establish branch of the POST try block
raises an exception. -/
def connectFailPostEffects : PostEffects :=
  { forwardOutcome := .ok ()
    connectOutcome := .error "ECONNRESET"
    initOutcome := .ok ()
    genSessionId := some "s1"
    newTransport := 7
    errId := "e2" }

/-- C2 counterexample: a GET for the registered session `"abc"` during
which the channel's request handling throws `"socket closed"` lets that
exception escape `handleGetRequest` — it is not converted into the
500-class internal-error envelope, contradicting the claim that both
entry points catch unexpected exceptions. -/
theorem get_exception_escapes_counterexample :
    handleGetRequest [("abc", 1)] (some "abc") (.error "socket closed") "e1" =
      .error "socket closed" := by
  rfl

/-- C2 (amended): any unexpected exception raised anywhere inside the
POST handler's try block — forwarding to an existing transport as well as
the Establish branch's `server.connect` or initialize handling — is
caught and converted into the 500-class `code -32000,
"Internal server error."` envelope with the registry left unchanged; the
GET entry point has no such catch, so an exception thrown while handling
a resolved session's request propagates to the transport layer. -/
theorem post_catches_get_propagates (st : Registry) (sid : Option String)
    (body : JsonBody) (fx : PostEffects) (e : String)
    (htry : handlePostRequestTry st sid body fx = .error e) :
    handlePostRequest st sid body fx =
      (.json 500 (createErrorResponse fx.errId "Internal server error."), st) ∧
    (∀ (st2 : Registry) (s2 : String) (t : Nat) (e2 errId : String),
      s2 ≠ "" → lookupTransport st2 s2 = some t →
      handleGetRequest st2 (some s2) (.error e2) errId = .error e2) := by
  constructor
  · rw [handlePostRequest, htry]
  · intro st2 s2 t e2 errId hs2 ht
    rw [handleGetRequest.eq_def]
    simp [truthyStr, hs2, ht]

theorem post_catches_get_propagates_witness :
    (handlePostRequest [] none (.single true) connectFailPostEffects =
      (.json 500 (createErrorResponse "e2" "Internal server error."), []) ∧
    (∀ (st2 : Registry) (s2 : String) (t : Nat) (e2 errId : String),
      s2 ≠ "" → lookupTransport st2 s2 = some t →
      handleGetRequest st2 (some s2) (.error e2) errId = .error e2)) :=
  post_catches_get_propagates [] none (.single true) connectFailPostEffects
    "ECONNRESET" (by rfl)

/-! ## C9: a stale session id never establishes a session -/

/-- C9: a POST carrying a (non-empty) session id that does not resolve in
the registry is answered with the 400 Bad-Request envelope and leaves the
registry unchanged, whatever the body — in particular even when the body
is a valid initialize Call, since the Establish branch requires the
session id to be absent. -/
theorem stale_id_no_establish (st : Registry) (s : String) (body : JsonBody)
    (fx : PostEffects) (hs : s ≠ "") (hun : lookupTransport st s = none) :
    handlePostRequest st (some s) body fx =
      (.json 400 (createErrorResponse fx.errId "Bad Request: invalid session ID or method."), st) := by
  rw [handlePostRequest, handlePostRequestTry]
  simp [truthyStr, hs, hun]

theorem stale_id_no_establish_witness :
    handlePostRequest [] (some "stale") (.single true) okPostEffects =
      (.json 400 (createErrorResponse "e1" "Bad Request: invalid session ID or method."), []) :=
  stale_id_no_establish [] "stale" (.single true) okPostEffects (by decide) (by rfl)

/-! ## C5: Bad Request responses -/

/-- C5: whenever the session id is absent (falsy) or does not resolve in
the registry, and — for the POST — the body is not a valid initialize
Call, both entry points answer status 400 with the envelope
`code -32000, "Bad Request: invalid session ID or method."`. -/
theorem bad_session_bad_request (st : Registry) (sid : Option String)
    (body : JsonBody) (fx : PostEffects) (fwd : Except String Unit) (errId : String)
    (habs : truthyStr sid = false ∨ lookupTransport st (sid.getD "") = none)
    (hni : isInitializeRequest body = false) :
    handleGetRequest st sid fwd errId =
      .ok (.json 400 (createErrorResponse errId "Bad Request: invalid session ID or method.")) ∧
    handlePostRequest st sid body fx =
      (.json 400 (createErrorResponse fx.errId "Bad Request: invalid session ID or method."), st) ∧
    (createErrorResponse errId "Bad Request: invalid session ID or method.").code = -32000 := by
  refine ⟨?_, ?_, rfl⟩
  · rw [handleGetRequest.eq_def]
    rcases habs with h | h <;> simp [h]
  · rw [handlePostRequest, handlePostRequestTry]
    rcases habs with h | h <;> simp [h, hni]

theorem bad_session_bad_request_witness :
    (handleGetRequest [] none (.ok ()) "e3" =
      .ok (.json 400 (createErrorResponse "e3" "Bad Request: invalid session ID or method.")) ∧
    handlePostRequest [] none (.single false) okPostEffects =
      (.json 400 (createErrorResponse "e1" "Bad Request: invalid session ID or method."), []) ∧
    (createErrorResponse "e3" "Bad Request: invalid session ID or method.").code = -32000) :=
  bad_session_bad_request [] none (.single false) okPostEffects (.ok ()) "e3"
    (Or.inl (by rfl)) (by rfl)

/-! ## C4: Establish creates a fresh, continuable session -/

/-- C4: a valid initialize POST with no session id, whose external calls
succeed and whose generated session id `g` is fresh (not in the registry,
the cryptographically-random UUID assumption), registers the new transport
under `g`; looking `g` up then yields that transport, a subsequent
Continue with id `g` is forwarded to it, and a second Establish whose
generated id `g2` is again fresh yields a distinct session id. -/
theorem establish_fresh_session (st : Registry) (body : JsonBody) (fx : PostEffects)
    (g g2 : String)
    (hinit : isInitializeRequest body = true)
    (hc : fx.connectOutcome = .ok ()) (hi : fx.initOutcome = .ok ())
    (hg : fx.genSessionId = some g) (hg0 : g ≠ "")
    (hfresh : lookupTransport st g = none)
    (hfresh2 : lookupTransport (insertTransport st g fx.newTransport) g2 = none) :
    handlePostRequest st none body fx =
      (.delegated, insertTransport st g fx.newTransport) ∧
    lookupTransport (insertTransport st g fx.newTransport) g = some fx.newTransport ∧
    (∀ fwd : PostEffects, fwd.forwardOutcome = .ok () → ∀ b : JsonBody,
      handlePostRequest (insertTransport st g fx.newTransport) (some g) b fwd =
        (.delegated, insertTransport st g fx.newTransport)) ∧
    g2 ≠ g := by
  have hlook := lookupTransport_insert st g fx.newTransport
  refine ⟨?_, hlook, ?_, ?_⟩
  · rw [handlePostRequest, handlePostRequestTry]
    simp [truthyStr, hinit, hc, hi, hg]
  · intro fwd hfwd b
    rw [handlePostRequest, handlePostRequestTry]
    simp [truthyStr, hg0, hlook, hfwd]
  · intro hEq
    rw [hEq, hlook] at hfresh2
    exact Option.noConfusion hfresh2

theorem establish_fresh_session_witness :
    (handlePostRequest [] none (.single true) okPostEffects =
      (.delegated, insertTransport [] "s1" 7) ∧
    lookupTransport (insertTransport [] "s1" 7) "s1" = some 7 ∧
    (∀ fwd : PostEffects, fwd.forwardOutcome = .ok () → ∀ b : JsonBody,
      handlePostRequest (insertTransport [] "s1" 7) (some "s1") b fwd =
        (.delegated, insertTransport [] "s1" 7)) ∧
    "s2" ≠ "s1") :=
  establish_fresh_session [] (.single true) okPostEffects "s1" "s2"
    (by rfl) (by rfl) (by rfl) (by rfl) (by decide) (by rfl) (by decide)

/-! ## C7: periodic catalog refresh broadcast -/

/-- C7: every tick of the catalog-refresh interval rebuilds a non-empty
catalog containing the `get_database_table_ddl` descriptor and attempts
exactly one tool-list-changed notification per transport currently in the
registry; the list of attempted transports does not depend on which sends
succeed, so one channel's failure never prevents notifying the others. -/
theorem refresh_tick_broadcast (st : Registry) (sendOk sendOk2 : Nat → Bool) :
    (refreshTick st sendOk).1 ≠ [] ∧
    getDDLTool ∈ (refreshTick st sendOk).1 ∧
    (refreshTick st sendOk).2.map (fun a => a.1) = st.map (fun p => p.2) ∧
    (∀ a ∈ (refreshTick st sendOk).2, a.2.1 = toolListChangedMethod) ∧
    (refreshTick st sendOk).2.map (fun a => a.1) =
      (refreshTick st sendOk2).2.map (fun a => a.1) := by
  refine ⟨by simp [refreshTick, listToolsResult],
    by simp [refreshTick, listToolsResult], ?_, ?_, ?_⟩
  · simp [refreshTick]
  · intro a ha
    simp only [refreshTick, List.mem_map] at ha
    obtain ⟨p, hp, rfl⟩ := ha
    rfl
  · simp [refreshTick]

/-! ## C6: executor failures become successful results -/

/-- C6: a call of the registered DDL tool always produces a successful
result envelope, never a thrown error; and each executor failure is
reported as text content: an unsupported database type is named in the
text (in particular `"mysql"`), incomplete resolved connection info gives
the incomplete-info text, and a connection or query failure gives the
`Failed to retrieve DDL:` text carrying the thrown message. -/
theorem executor_failures_as_results (fx : ToolEffects) (args : DDLArgs)
    (dt : String) (ci : ConnectionInfoArgs) (tn : String)
    (hdt : args.database_type = some dt) (hdt0 : dt ≠ "")
    (hci : args.connection_info = some ci)
    (htn : args.table_name = some tn) (htn0 : tn ≠ "") :
    (∃ r, callToolHandler fx getDDLToolName (some args) = .ok r) ∧
    (jsToLowerCase dt ≠ "postgresql" → jsToLowerCase dt ≠ "postgres" →
      handleGetDDLTool fx args = unsupportedDbResult dt ∧
      (unsupportedDbResult dt).content =
        [{ type := "text",
           text := "Unsupported database type: " ++ dt ++ ". Only PostgreSQL is supported." }]) ∧
    (dt = "mysql" →
      (handleGetDDLTool fx args).content =
        [{ type := "text",
           text := "Unsupported database type: mysql. Only PostgreSQL is supported." }]) ∧
    ((jsToLowerCase dt = "postgresql" ∨ jsToLowerCase dt = "postgres") →
      connIncomplete (resolveConn fx.env ci) = true →
      handleGetDDLTool fx args = incompleteConnResult) ∧
    (∀ e, (jsToLowerCase dt = "postgresql" ∨ jsToLowerCase dt = "postgres") →
      connIncomplete (resolveConn fx.env ci) = false →
      fx.query (resolveConn fx.env ci) tn = .error e →
      handleGetDDLTool fx args = ddlFailureResult e ∧
      (ddlFailureResult e).content =
        [{ type := "text", text := "Failed to retrieve DDL: " ++ e }]) := by
  have hunsup : ∀ h1 : jsToLowerCase dt ≠ "postgresql", jsToLowerCase dt ≠ "postgres" →
      handleGetDDLTool fx args = unsupportedDbResult dt := by
    intro h1 h2
    simp [handleGetDDLTool, hdt, hci, htn, truthyStr, hdt0, htn0, h1, h2]
  refine ⟨⟨handleGetDDLTool fx args, by simp [callToolHandler, getDDLToolName]⟩,
    fun h1 h2 => ⟨hunsup h1 h2, rfl⟩, ?_, ?_, ?_⟩
  · intro hmy
    rw [hunsup (by rw [hmy]; decide) (by rw [hmy]; decide), hmy]
    rfl
  · intro hpg hinc
    rcases hpg with h | h <;>
      simp [handleGetDDLTool, hdt, hci, htn, truthyStr, hdt0, htn0, h, hinc]
  · intro e hpg hinc hq
    refine ⟨?_, rfl⟩
    rcases hpg with h | h <;>
      simp [handleGetDDLTool, hdt, hci, htn, truthyStr, hdt0, htn0, h, hinc, hq]

theorem executor_failures_as_results_witness :
    ((∃ r, callToolHandler testToolEffects getDDLToolName
        (some ⟨some "mysql", some emptyConnArgs, some "users"⟩) = .ok r) ∧
    (jsToLowerCase "mysql" ≠ "postgresql" → jsToLowerCase "mysql" ≠ "postgres" →
      handleGetDDLTool testToolEffects ⟨some "mysql", some emptyConnArgs, some "users"⟩ =
        unsupportedDbResult "mysql" ∧
      (unsupportedDbResult "mysql").content =
        [{ type := "text",
           text := "Unsupported database type: " ++ "mysql" ++ ". Only PostgreSQL is supported." }]) ∧
    ("mysql" = "mysql" →
      (handleGetDDLTool testToolEffects ⟨some "mysql", some emptyConnArgs, some "users"⟩).content =
        [{ type := "text",
           text := "Unsupported database type: mysql. Only PostgreSQL is supported." }]) ∧
    ((jsToLowerCase "mysql" = "postgresql" ∨ jsToLowerCase "mysql" = "postgres") →
      connIncomplete (resolveConn testToolEffects.env emptyConnArgs) = true →
      handleGetDDLTool testToolEffects ⟨some "mysql", some emptyConnArgs, some "users"⟩ =
        incompleteConnResult) ∧
    (∀ e, (jsToLowerCase "mysql" = "postgresql" ∨ jsToLowerCase "mysql" = "postgres") →
      connIncomplete (resolveConn testToolEffects.env emptyConnArgs) = false →
      testToolEffects.query (resolveConn testToolEffects.env emptyConnArgs) "users" = .error e →
      handleGetDDLTool testToolEffects ⟨some "mysql", some emptyConnArgs, some "users"⟩ =
        ddlFailureResult e ∧
      (ddlFailureResult e).content =
        [{ type := "text", text := "Failed to retrieve DDL: " ++ e }])) :=
  executor_failures_as_results testToolEffects
    ⟨some "mysql", some emptyConnArgs, some "users"⟩ "mysql" emptyConnArgs "users"
    rfl (by decide) rfl rfl (by decide)

/-! ## C10: missing tool parameters -/

/-- C10: a call of `get_database_table_ddl` whose arguments object is
present but has a falsy `database_type`, `connection_info` or
`table_name` returns — without throwing — a successful result whose
single text content is the missing-parameters message, whereas a wholly
absent arguments object makes the handler throw `"arguments undefined"`. -/
theorem missing_params_result (fx : ToolEffects) (args : DDLArgs)
    (h : truthyStr args.database_type = false ∨ args.connection_info.isNone = true ∨
      truthyStr args.table_name = false) :
    callToolHandler fx getDDLToolName (some args) = .ok missingParamsResult ∧
    missingParamsResult.content =
      [{ type := "text",
         text := "Missing required parameters: database_type, connection_info, or table_name." }] ∧
    callToolHandler fx getDDLToolName none = .error "arguments undefined" := by
  refine ⟨?_, rfl, rfl⟩
  have hmiss : handleGetDDLTool fx args = missingParamsResult := by
    rcases h with h | h | h <;> simp [handleGetDDLTool, h]
  simp [callToolHandler, getDDLToolName, hmiss]

theorem missing_params_result_witness :
    (callToolHandler testToolEffects getDDLToolName
        (some ⟨some "postgresql", none, some "users"⟩) = .ok missingParamsResult ∧
    missingParamsResult.content =
      [{ type := "text",
         text := "Missing required parameters: database_type, connection_info, or table_name." }] ∧
    callToolHandler testToolEffects getDDLToolName none = .error "arguments undefined") :=
  missing_params_result testToolEffects ⟨some "postgresql", none, some "users"⟩
    (Or.inr (Or.inl rfl))
